import Mathlib

/-!
# gamelibs / imgui_backends: the C-linkage wrapper over the SDL2 and OpenGL3 backends

Shallow embedding of `cimgui_sdl2_opengl3.cpp`, `cimgui_sdl2_opengl3.h` and
`cimgui_essential.h`.

* The ten `cImGui_Impl*` functions are embedded as programs over a signature of
  external calls (`Call`): the wrapped backend is not part of the repository, so
  it is a parameter (`Backend σ`) and a program is run against any such backend,
  from any backend state, recording every external call it performs.
* The two headers are embedded as data: the list of declared functions with their
  return and parameter types, the `ImVec2` and `ImVec4` struct declarations with a
  layout rule over a platform parameter, and the `ImGuiWindowFlags_` enumeration with
  its values.
-/

namespace ImguiBackends

/-! ## The wrapped backend -/

/-- A pointer crossing the C boundary: an opaque machine address, `0` being the null pointer.
`SDL_Window*`, `void*`, `const SDL_Event*`, `const char*` and `ImDrawData*` are all passed
through unchanged and never dereferenced by the wrapper. -/
abbrev Ptr := Nat

/-- One invocation of a function of the wrapped backend (`imgui_impl_sdl2.h`,
`imgui_impl_opengl3.h`), with its actual arguments in order. -/
inductive Call where
  | ImGui_ImplSDL2_InitForOpenGL (window : Ptr) (sdl_gl_context : Ptr)
  | ImGui_ImplSDL2_Shutdown
  | ImGui_ImplSDL2_NewFrame
  | ImGui_ImplSDL2_ProcessEvent (event : Ptr)
  | ImGui_ImplOpenGL3_Init (glsl_version : Ptr)
  | ImGui_ImplOpenGL3_Shutdown
  | ImGui_ImplOpenGL3_NewFrame
  | ImGui_ImplOpenGL3_RenderDrawData (draw_data : Ptr)
  | ImGui_ImplOpenGL3_CreateDeviceObjects
  | ImGui_ImplOpenGL3_DestroyDeviceObjects
  deriving DecidableEq, Repr

/-- The C return type of each backend function: `bool` or `void`. -/
@[reducible] def Call.Ret : Call → Type
  | .ImGui_ImplSDL2_InitForOpenGL _ _ => Bool
  | .ImGui_ImplSDL2_Shutdown => Unit
  | .ImGui_ImplSDL2_NewFrame => Unit
  | .ImGui_ImplSDL2_ProcessEvent _ => Bool
  | .ImGui_ImplOpenGL3_Init _ => Bool
  | .ImGui_ImplOpenGL3_Shutdown => Unit
  | .ImGui_ImplOpenGL3_NewFrame => Unit
  | .ImGui_ImplOpenGL3_RenderDrawData _ => Unit
  | .ImGui_ImplOpenGL3_CreateDeviceObjects => Bool
  | .ImGui_ImplOpenGL3_DestroyDeviceObjects => Unit

/-- The name of the backend function being invoked. -/
def Call.name : Call → String
  | .ImGui_ImplSDL2_InitForOpenGL _ _ => "ImGui_ImplSDL2_InitForOpenGL"
  | .ImGui_ImplSDL2_Shutdown => "ImGui_ImplSDL2_Shutdown"
  | .ImGui_ImplSDL2_NewFrame => "ImGui_ImplSDL2_NewFrame"
  | .ImGui_ImplSDL2_ProcessEvent _ => "ImGui_ImplSDL2_ProcessEvent"
  | .ImGui_ImplOpenGL3_Init _ => "ImGui_ImplOpenGL3_Init"
  | .ImGui_ImplOpenGL3_Shutdown => "ImGui_ImplOpenGL3_Shutdown"
  | .ImGui_ImplOpenGL3_NewFrame => "ImGui_ImplOpenGL3_NewFrame"
  | .ImGui_ImplOpenGL3_RenderDrawData _ => "ImGui_ImplOpenGL3_RenderDrawData"
  | .ImGui_ImplOpenGL3_CreateDeviceObjects => "ImGui_ImplOpenGL3_CreateDeviceObjects"
  | .ImGui_ImplOpenGL3_DestroyDeviceObjects => "ImGui_ImplOpenGL3_DestroyDeviceObjects"

/-- The actual arguments of an invocation, in order. -/
def Call.args : Call → List Ptr
  | .ImGui_ImplSDL2_InitForOpenGL window sdl_gl_context => [window, sdl_gl_context]
  | .ImGui_ImplSDL2_Shutdown => []
  | .ImGui_ImplSDL2_NewFrame => []
  | .ImGui_ImplSDL2_ProcessEvent event => [event]
  | .ImGui_ImplOpenGL3_Init glsl_version => [glsl_version]
  | .ImGui_ImplOpenGL3_Shutdown => []
  | .ImGui_ImplOpenGL3_NewFrame => []
  | .ImGui_ImplOpenGL3_RenderDrawData draw_data => [draw_data]
  | .ImGui_ImplOpenGL3_CreateDeviceObjects => []
  | .ImGui_ImplOpenGL3_DestroyDeviceObjects => []

/-- A value returned across the C boundary, with the `void` case made explicit. -/
def Call.retVal : (c : Call) → c.Ret → Option Bool
  | .ImGui_ImplSDL2_InitForOpenGL _ _, r => some r
  | .ImGui_ImplSDL2_Shutdown, _ => none
  | .ImGui_ImplSDL2_NewFrame, _ => none
  | .ImGui_ImplSDL2_ProcessEvent _, r => some r
  | .ImGui_ImplOpenGL3_Init _, r => some r
  | .ImGui_ImplOpenGL3_Shutdown, _ => none
  | .ImGui_ImplOpenGL3_NewFrame, _ => none
  | .ImGui_ImplOpenGL3_RenderDrawData _, _ => none
  | .ImGui_ImplOpenGL3_CreateDeviceObjects, r => some r
  | .ImGui_ImplOpenGL3_DestroyDeviceObjects, _ => none

/-- The wrapped backend, which lives outside the repository: an arbitrary behaviour for each of
its ten functions over an arbitrary backend state `σ` (the GUI context, the SDL and GL state).
Each function is taken to return to its caller; what it returns and how it changes the state is
left open, also on null or dangling pointers. -/
structure Backend (σ : Type) where
  ImGui_ImplSDL2_InitForOpenGL : Ptr → Ptr → σ → Bool × σ
  ImGui_ImplSDL2_Shutdown : σ → Unit × σ
  ImGui_ImplSDL2_NewFrame : σ → Unit × σ
  ImGui_ImplSDL2_ProcessEvent : Ptr → σ → Bool × σ
  ImGui_ImplOpenGL3_Init : Ptr → σ → Bool × σ
  ImGui_ImplOpenGL3_Shutdown : σ → Unit × σ
  ImGui_ImplOpenGL3_NewFrame : σ → Unit × σ
  ImGui_ImplOpenGL3_RenderDrawData : Ptr → σ → Unit × σ
  ImGui_ImplOpenGL3_CreateDeviceObjects : σ → Bool × σ
  ImGui_ImplOpenGL3_DestroyDeviceObjects : σ → Unit × σ

/-- Performing one invocation against a backend. -/
def Backend.exec {σ : Type} (B : Backend σ) : (c : Call) → σ → c.Ret × σ
  | .ImGui_ImplSDL2_InitForOpenGL window sdl_gl_context =>
      B.ImGui_ImplSDL2_InitForOpenGL window sdl_gl_context
  | .ImGui_ImplSDL2_Shutdown => B.ImGui_ImplSDL2_Shutdown
  | .ImGui_ImplSDL2_NewFrame => B.ImGui_ImplSDL2_NewFrame
  | .ImGui_ImplSDL2_ProcessEvent event => B.ImGui_ImplSDL2_ProcessEvent event
  | .ImGui_ImplOpenGL3_Init glsl_version => B.ImGui_ImplOpenGL3_Init glsl_version
  | .ImGui_ImplOpenGL3_Shutdown => B.ImGui_ImplOpenGL3_Shutdown
  | .ImGui_ImplOpenGL3_NewFrame => B.ImGui_ImplOpenGL3_NewFrame
  | .ImGui_ImplOpenGL3_RenderDrawData draw_data => B.ImGui_ImplOpenGL3_RenderDrawData draw_data
  | .ImGui_ImplOpenGL3_CreateDeviceObjects => B.ImGui_ImplOpenGL3_CreateDeviceObjects
  | .ImGui_ImplOpenGL3_DestroyDeviceObjects => B.ImGui_ImplOpenGL3_DestroyDeviceObjects

/-! ## Programs over the backend -/

/-- A C function body that may call into the backend: it either returns a value or performs
one external call and continues with the value that call returned. -/
inductive Prog (α : Type) where
  | ret (a : α) : Prog α
  | call (c : Call) (k : c.Ret → Prog α) : Prog α

/-- Sequencing of function bodies. -/
def Prog.bind {α β : Type} : Prog α → (α → Prog β) → Prog β
  | .ret a, f => f a
  | .call c k, f => .call c (fun r => (k r).bind f)

instance : Monad Prog where
  pure := Prog.ret
  bind := Prog.bind

/-- The statement `f(args)` calling backend function `f`: one external call whose result is the
value of the expression. -/
def invoke (c : Call) : Prog c.Ret := .call c .ret

/-- What running a function body produced: the value returned to the caller, the backend state
afterwards and the external calls performed, oldest first. -/
structure Outcome (α σ : Type) where
  value : α
  state : σ
  trace : List Call

/-- Running a body against backend `B` from state `s`. Every external call is executed by the
backend and appended to the trace. -/
def Prog.run {α σ : Type} (B : Backend σ) : Prog α → σ → Outcome α σ
  | .ret a, s => ⟨a, s, []⟩
  | .call c k, s =>
      let r := B.exec c s
      let o := (k r.1).run B r.2
      ⟨o.value, o.state, c :: o.trace⟩

/-! ## cimgui_sdl2_opengl3.cpp -/

/-- SDL2 backend: `bool cImGui_ImplSDL2_InitForOpenGL(SDL_Window* window, void* sdl_gl_context)`. -/
def cImGui_ImplSDL2_InitForOpenGL (window : Ptr) (sdl_gl_context : Ptr) : Prog Bool := do
  return (← invoke (.ImGui_ImplSDL2_InitForOpenGL window sdl_gl_context))

/-- SDL2 backend: `void cImGui_ImplSDL2_Shutdown()`. -/
def cImGui_ImplSDL2_Shutdown : Prog Unit := do
  invoke .ImGui_ImplSDL2_Shutdown

/-- SDL2 backend: `void cImGui_ImplSDL2_NewFrame()`. -/
def cImGui_ImplSDL2_NewFrame : Prog Unit := do
  invoke .ImGui_ImplSDL2_NewFrame

/-- SDL2 backend: `bool cImGui_ImplSDL2_ProcessEvent(const SDL_Event* event)`. -/
def cImGui_ImplSDL2_ProcessEvent (event : Ptr) : Prog Bool := do
  return (← invoke (.ImGui_ImplSDL2_ProcessEvent event))

/-- OpenGL3 backend: `bool cImGui_ImplOpenGL3_Init(const char* glsl_version)`. -/
def cImGui_ImplOpenGL3_Init (glsl_version : Ptr) : Prog Bool := do
  return (← invoke (.ImGui_ImplOpenGL3_Init glsl_version))

/-- OpenGL3 backend: `void cImGui_ImplOpenGL3_Shutdown()`. -/
def cImGui_ImplOpenGL3_Shutdown : Prog Unit := do
  invoke .ImGui_ImplOpenGL3_Shutdown

/-- OpenGL3 backend: `void cImGui_ImplOpenGL3_NewFrame()`. -/
def cImGui_ImplOpenGL3_NewFrame : Prog Unit := do
  invoke .ImGui_ImplOpenGL3_NewFrame

/-- OpenGL3 backend: `void cImGui_ImplOpenGL3_RenderDrawData(ImDrawData* draw_data)`. -/
def cImGui_ImplOpenGL3_RenderDrawData (draw_data : Ptr) : Prog Unit := do
  invoke (.ImGui_ImplOpenGL3_RenderDrawData draw_data)

/-- OpenGL3 backend: `bool cImGui_ImplOpenGL3_CreateDeviceObjects()`. -/
def cImGui_ImplOpenGL3_CreateDeviceObjects : Prog Bool := do
  return (← invoke .ImGui_ImplOpenGL3_CreateDeviceObjects)

/-- OpenGL3 backend: `void cImGui_ImplOpenGL3_DestroyDeviceObjects()`. -/
def cImGui_ImplOpenGL3_DestroyDeviceObjects : Prog Unit := do
  invoke .ImGui_ImplOpenGL3_DestroyDeviceObjects

/-! ## Sequences of wrapper calls -/

/-- One call made by a client to an exported function of `cimgui_sdl2_opengl3.h`, with its
actual arguments. Pointer arguments are arbitrary, null included. -/
inductive WrapperCall where
  | cImGui_ImplSDL2_InitForOpenGL (window : Ptr) (sdl_gl_context : Ptr)
  | cImGui_ImplSDL2_Shutdown
  | cImGui_ImplSDL2_NewFrame
  | cImGui_ImplSDL2_ProcessEvent (event : Ptr)
  | cImGui_ImplOpenGL3_Init (glsl_version : Ptr)
  | cImGui_ImplOpenGL3_Shutdown
  | cImGui_ImplOpenGL3_NewFrame
  | cImGui_ImplOpenGL3_RenderDrawData (draw_data : Ptr)
  | cImGui_ImplOpenGL3_CreateDeviceObjects
  | cImGui_ImplOpenGL3_DestroyDeviceObjects
  deriving DecidableEq, Repr

/-- The exported symbol a client call refers to. -/
def WrapperCall.name : WrapperCall → String
  | .cImGui_ImplSDL2_InitForOpenGL _ _ => "cImGui_ImplSDL2_InitForOpenGL"
  | .cImGui_ImplSDL2_Shutdown => "cImGui_ImplSDL2_Shutdown"
  | .cImGui_ImplSDL2_NewFrame => "cImGui_ImplSDL2_NewFrame"
  | .cImGui_ImplSDL2_ProcessEvent _ => "cImGui_ImplSDL2_ProcessEvent"
  | .cImGui_ImplOpenGL3_Init _ => "cImGui_ImplOpenGL3_Init"
  | .cImGui_ImplOpenGL3_Shutdown => "cImGui_ImplOpenGL3_Shutdown"
  | .cImGui_ImplOpenGL3_NewFrame => "cImGui_ImplOpenGL3_NewFrame"
  | .cImGui_ImplOpenGL3_RenderDrawData _ => "cImGui_ImplOpenGL3_RenderDrawData"
  | .cImGui_ImplOpenGL3_CreateDeviceObjects => "cImGui_ImplOpenGL3_CreateDeviceObjects"
  | .cImGui_ImplOpenGL3_DestroyDeviceObjects => "cImGui_ImplOpenGL3_DestroyDeviceObjects"

/-- The actual arguments of a client call, in order. -/
def WrapperCall.args : WrapperCall → List Ptr
  | .cImGui_ImplSDL2_InitForOpenGL window sdl_gl_context => [window, sdl_gl_context]
  | .cImGui_ImplSDL2_Shutdown => []
  | .cImGui_ImplSDL2_NewFrame => []
  | .cImGui_ImplSDL2_ProcessEvent event => [event]
  | .cImGui_ImplOpenGL3_Init glsl_version => [glsl_version]
  | .cImGui_ImplOpenGL3_Shutdown => []
  | .cImGui_ImplOpenGL3_NewFrame => []
  | .cImGui_ImplOpenGL3_RenderDrawData draw_data => [draw_data]
  | .cImGui_ImplOpenGL3_CreateDeviceObjects => []
  | .cImGui_ImplOpenGL3_DestroyDeviceObjects => []

/-- Executing a client call: the body of the called function, from `cimgui_sdl2_opengl3.cpp`,
with its `bool` or `void` result made explicit. -/
def dispatch : WrapperCall → Prog (Option Bool)
  | .cImGui_ImplSDL2_InitForOpenGL window sdl_gl_context =>
      some <$> cImGui_ImplSDL2_InitForOpenGL window sdl_gl_context
  | .cImGui_ImplSDL2_Shutdown => (fun _ => none) <$> cImGui_ImplSDL2_Shutdown
  | .cImGui_ImplSDL2_NewFrame => (fun _ => none) <$> cImGui_ImplSDL2_NewFrame
  | .cImGui_ImplSDL2_ProcessEvent event => some <$> cImGui_ImplSDL2_ProcessEvent event
  | .cImGui_ImplOpenGL3_Init glsl_version => some <$> cImGui_ImplOpenGL3_Init glsl_version
  | .cImGui_ImplOpenGL3_Shutdown => (fun _ => none) <$> cImGui_ImplOpenGL3_Shutdown
  | .cImGui_ImplOpenGL3_NewFrame => (fun _ => none) <$> cImGui_ImplOpenGL3_NewFrame
  | .cImGui_ImplOpenGL3_RenderDrawData draw_data =>
      (fun _ => none) <$> cImGui_ImplOpenGL3_RenderDrawData draw_data
  | .cImGui_ImplOpenGL3_CreateDeviceObjects => some <$> cImGui_ImplOpenGL3_CreateDeviceObjects
  | .cImGui_ImplOpenGL3_DestroyDeviceObjects =>
      (fun _ => none) <$> cImGui_ImplOpenGL3_DestroyDeviceObjects

/-- What a session produced: the final backend state, the external calls performed (oldest
first) and the value each client call returned. -/
structure Session (σ : Type) where
  state : σ
  trace : List Call
  results : List (Option Bool)

/-- A client making the wrapper calls `ws` one after the other, starting in backend state `s`. -/
def runWrappers {σ : Type} (B : Backend σ) : List WrapperCall → σ → Session σ
  | [], s => ⟨s, [], []⟩
  | w :: ws, s =>
      let o := (dispatch w).run B s
      let rest := runWrappers B ws o.state
      ⟨rest.state, o.trace ++ rest.trace, o.value :: rest.results⟩

/-- A client calling the backend functions `cs` directly, without the wrapper. -/
def runDirect {σ : Type} (B : Backend σ) : List Call → σ → σ × List (Option Bool)
  | [], s => (s, [])
  | c :: cs, s =>
      let r := B.exec c s
      let rest := runDirect B cs r.2
      (rest.1, c.retVal r.1 :: rest.2)

/-- The forwarding stated by the specification: each wrapper stands for the backend function of
the same name without the leading `c`, applied to the same arguments in the same order. -/
def WrapperCall.forwarded : WrapperCall → Call
  | .cImGui_ImplSDL2_InitForOpenGL window sdl_gl_context =>
      .ImGui_ImplSDL2_InitForOpenGL window sdl_gl_context
  | .cImGui_ImplSDL2_Shutdown => .ImGui_ImplSDL2_Shutdown
  | .cImGui_ImplSDL2_NewFrame => .ImGui_ImplSDL2_NewFrame
  | .cImGui_ImplSDL2_ProcessEvent event => .ImGui_ImplSDL2_ProcessEvent event
  | .cImGui_ImplOpenGL3_Init glsl_version => .ImGui_ImplOpenGL3_Init glsl_version
  | .cImGui_ImplOpenGL3_Shutdown => .ImGui_ImplOpenGL3_Shutdown
  | .cImGui_ImplOpenGL3_NewFrame => .ImGui_ImplOpenGL3_NewFrame
  | .cImGui_ImplOpenGL3_RenderDrawData draw_data => .ImGui_ImplOpenGL3_RenderDrawData draw_data
  | .cImGui_ImplOpenGL3_CreateDeviceObjects => .ImGui_ImplOpenGL3_CreateDeviceObjects
  | .cImGui_ImplOpenGL3_DestroyDeviceObjects => .ImGui_ImplOpenGL3_DestroyDeviceObjects

/-! ## The exported declarations -/

/-- The C types occurring in the two headers. -/
inductive CType where
  | void
  | bool
  | int
  | unsignedInt
  | float
  | double
  | size_t
  | char
  /-- A struct, union or typedef name such as `ImVec2`, `SDL_Event`, `ImGuiContext`. -/
  | named (tag : String)
  | const (t : CType)
  | ptr (t : CType)
  /-- An array declarator `t name[len]`, the length possibly omitted. -/
  | array (t : CType) (len : Option Nat)
  deriving DecidableEq, Repr

/-- A parameter of a function declaration. -/
structure Param where
  type : CType
  name : String
  deriving DecidableEq, Repr

/-- A function declaration `ret name(params);`. An empty or `void` parameter list is `[]`. -/
structure FunDecl where
  ret : CType
  name : String
  params : List Param
  deriving DecidableEq, Repr

/-- Section "SDL2 Backend Functions" of `cimgui_sdl2_opengl3.h`. -/
def sdl2BackendFunctionsDecls : List FunDecl := [
  ⟨.bool, "cImGui_ImplSDL2_InitForOpenGL", [⟨(.ptr (.named "SDL_Window")), "window"⟩, ⟨(.ptr .void), "sdl_gl_context"⟩]⟩,
  ⟨.void, "cImGui_ImplSDL2_Shutdown", []⟩,
  ⟨.void, "cImGui_ImplSDL2_NewFrame", []⟩,
  ⟨.bool, "cImGui_ImplSDL2_ProcessEvent", [⟨(.ptr (.const (.named "SDL_Event"))), "event"⟩]⟩
]

/-- Section "OpenGL3 Backend Functions" of `cimgui_sdl2_opengl3.h`. -/
def opengl3BackendFunctionsDecls : List FunDecl := [
  ⟨.bool, "cImGui_ImplOpenGL3_Init", [⟨(.ptr (.const .char)), "glsl_version"⟩]⟩,
  ⟨.void, "cImGui_ImplOpenGL3_Shutdown", []⟩,
  ⟨.void, "cImGui_ImplOpenGL3_NewFrame", []⟩,
  ⟨.void, "cImGui_ImplOpenGL3_RenderDrawData", [⟨(.ptr (.named "ImDrawData")), "draw_data"⟩]⟩,
  ⟨.bool, "cImGui_ImplOpenGL3_CreateDeviceObjects", []⟩,
  ⟨.void, "cImGui_ImplOpenGL3_DestroyDeviceObjects", []⟩
]

/-- The function declarations of `cimgui_sdl2_opengl3.h`, in order. -/
def cimgui_sdl2_opengl3_h : List FunDecl :=
  sdl2BackendFunctionsDecls ++ opengl3BackendFunctionsDecls

/-- Section "Core Context Functions" of `cimgui_essential.h`. -/
def coreContextFunctionsDecls : List FunDecl := [
  ⟨(.ptr (.named "ImGuiContext")), "igCreateContext", [⟨(.ptr .void), "shared_font_atlas"⟩]⟩,
  ⟨.void, "igDestroyContext", [⟨(.ptr (.named "ImGuiContext")), "ctx"⟩]⟩,
  ⟨(.ptr (.named "ImGuiContext")), "igGetCurrentContext", []⟩,
  ⟨.void, "igSetCurrentContext", [⟨(.ptr (.named "ImGuiContext")), "ctx"⟩]⟩
]

/-- Section "IO Functions" of `cimgui_essential.h`. -/
def ioFunctionsDecls : List FunDecl := [
  ⟨(.ptr (.named "ImGuiIO")), "igGetIO", []⟩,
  ⟨.double, "igGetTime", []⟩,
  ⟨.void, "igSetTime", [⟨.double, "time"⟩]⟩
]

/-- Section "Frame Functions" of `cimgui_essential.h`. -/
def frameFunctionsDecls : List FunDecl := [
  ⟨.void, "igNewFrame", []⟩,
  ⟨.void, "igEndFrame", []⟩,
  ⟨.void, "igRender", []⟩,
  ⟨(.ptr (.named "ImDrawData")), "igGetDrawData", []⟩
]

/-- Section "Window Functions" of `cimgui_essential.h`. -/
def windowFunctionsDecls : List FunDecl := [
  ⟨.bool, "igBegin", [⟨(.ptr (.const .char)), "name"⟩, ⟨(.ptr .bool), "p_open"⟩, ⟨.int, "flags"⟩]⟩,
  ⟨.void, "igEnd", []⟩,
  ⟨.bool, "igBeginChild", [⟨(.ptr (.const .char)), "str_id"⟩, ⟨(.named "ImVec2"), "size"⟩, ⟨.bool, "border"⟩, ⟨.int, "flags"⟩]⟩,
  ⟨.void, "igEndChild", []⟩
]

/-- Section "Demo/Debug Windows" of `cimgui_essential.h`. -/
def demoDebugWindowsDecls : List FunDecl := [
  ⟨.void, "igShowDemoWindow", [⟨(.ptr .bool), "p_open"⟩]⟩,
  ⟨.void, "igShowMetricsWindow", [⟨(.ptr .bool), "p_open"⟩]⟩,
  ⟨.void, "igShowAboutWindow", [⟨(.ptr .bool), "p_open"⟩]⟩
]

/-- Section "Window Utilities" of `cimgui_essential.h`. -/
def windowUtilitiesDecls : List FunDecl := [
  ⟨.bool, "igIsWindowAppearing", []⟩,
  ⟨.bool, "igIsWindowCollapsed", []⟩,
  ⟨.bool, "igIsWindowFocused", [⟨.int, "flags"⟩]⟩,
  ⟨.bool, "igIsWindowHovered", [⟨.int, "flags"⟩]⟩,
  ⟨.void, "igGetWindowPos", [⟨(.ptr (.named "ImVec2")), "pOut"⟩]⟩,
  ⟨.void, "igGetWindowSize", [⟨(.ptr (.named "ImVec2")), "pOut"⟩]⟩,
  ⟨.float, "igGetWindowWidth", []⟩,
  ⟨.float, "igGetWindowHeight", []⟩
]

/-- Section "Window Manipulation" of `cimgui_essential.h`. -/
def windowManipulationDecls : List FunDecl := [
  ⟨.void, "igSetNextWindowPos", [⟨(.named "ImVec2"), "pos"⟩, ⟨.int, "cond"⟩, ⟨(.named "ImVec2"), "pivot"⟩]⟩,
  ⟨.void, "igSetNextWindowSize", [⟨(.named "ImVec2"), "size"⟩, ⟨.int, "cond"⟩]⟩,
  ⟨.void, "igSetNextWindowContentSize", [⟨(.named "ImVec2"), "size"⟩]⟩,
  ⟨.void, "igSetNextWindowCollapsed", [⟨.bool, "collapsed"⟩, ⟨.int, "cond"⟩]⟩,
  ⟨.void, "igSetNextWindowFocus", []⟩,
  ⟨.void, "igSetNextWindowBgAlpha", [⟨.float, "alpha"⟩]⟩
]

/-- Section "Layout" of `cimgui_essential.h`. -/
def layoutDecls : List FunDecl := [
  ⟨.void, "igSeparator", []⟩,
  ⟨.void, "igSameLine", [⟨.float, "offset_from_start_x"⟩, ⟨.float, "spacing"⟩]⟩,
  ⟨.void, "igNewLine", []⟩,
  ⟨.void, "igSpacing", []⟩,
  ⟨.void, "igDummy", [⟨(.named "ImVec2"), "size"⟩]⟩,
  ⟨.void, "igIndent", [⟨.float, "indent_w"⟩]⟩,
  ⟨.void, "igUnindent", [⟨.float, "indent_w"⟩]⟩,
  ⟨.void, "igBeginGroup", []⟩,
  ⟨.void, "igEndGroup", []⟩,
  ⟨.void, "igGetCursorPos", [⟨(.ptr (.named "ImVec2")), "pOut"⟩]⟩,
  ⟨.float, "igGetCursorPosX", []⟩,
  ⟨.float, "igGetCursorPosY", []⟩,
  ⟨.void, "igSetCursorPos", [⟨(.named "ImVec2"), "local_pos"⟩]⟩,
  ⟨.void, "igSetCursorPosX", [⟨.float, "local_x"⟩]⟩,
  ⟨.void, "igSetCursorPosY", [⟨.float, "local_y"⟩]⟩
]

/-- Section "Text" of `cimgui_essential.h`. -/
def textDecls : List FunDecl := [
  ⟨.void, "igText", [⟨(.ptr (.const .char)), "fmt"⟩]⟩,
  ⟨.void, "igTextColored", [⟨(.named "ImVec4"), "col"⟩, ⟨(.ptr (.const .char)), "fmt"⟩]⟩,
  ⟨.void, "igTextDisabled", [⟨(.ptr (.const .char)), "fmt"⟩]⟩,
  ⟨.void, "igTextWrapped", [⟨(.ptr (.const .char)), "fmt"⟩]⟩,
  ⟨.void, "igLabelText", [⟨(.ptr (.const .char)), "label"⟩, ⟨(.ptr (.const .char)), "fmt"⟩]⟩,
  ⟨.void, "igBulletText", [⟨(.ptr (.const .char)), "fmt"⟩]⟩
]

/-- Section "Main Widgets" of `cimgui_essential.h`. -/
def mainWidgetsDecls : List FunDecl := [
  ⟨.bool, "igButton", [⟨(.ptr (.const .char)), "label"⟩, ⟨(.named "ImVec2"), "size"⟩]⟩,
  ⟨.bool, "igSmallButton", [⟨(.ptr (.const .char)), "label"⟩]⟩,
  ⟨.bool, "igInvisibleButton", [⟨(.ptr (.const .char)), "str_id"⟩, ⟨(.named "ImVec2"), "size"⟩, ⟨.int, "flags"⟩]⟩,
  ⟨.bool, "igArrowButton", [⟨(.ptr (.const .char)), "str_id"⟩, ⟨.int, "dir"⟩]⟩,
  ⟨.bool, "igCheckbox", [⟨(.ptr (.const .char)), "label"⟩, ⟨(.ptr .bool), "v"⟩]⟩,
  ⟨.bool, "igRadioButton", [⟨(.ptr (.const .char)), "label"⟩, ⟨.bool, "active"⟩]⟩,
  ⟨.void, "igProgressBar", [⟨.float, "fraction"⟩, ⟨(.named "ImVec2"), "size_arg"⟩, ⟨(.ptr (.const .char)), "overlay"⟩]⟩,
  ⟨.void, "igBullet", []⟩
]

/-- Section "Images" of `cimgui_essential.h`. -/
def imagesDecls : List FunDecl := [
  ⟨.void, "igImage", [⟨(.ptr .void), "user_texture_id"⟩, ⟨(.named "ImVec2"), "size"⟩, ⟨(.named "ImVec2"), "uv0"⟩, ⟨(.named "ImVec2"), "uv1"⟩, ⟨(.named "ImVec4"), "tint_col"⟩, ⟨(.named "ImVec4"), "border_col"⟩]⟩,
  ⟨.bool, "igImageButton", [⟨(.ptr .void), "user_texture_id"⟩, ⟨(.named "ImVec2"), "size"⟩, ⟨(.named "ImVec2"), "uv0"⟩, ⟨(.named "ImVec2"), "uv1"⟩, ⟨.int, "frame_padding"⟩, ⟨(.named "ImVec4"), "bg_col"⟩, ⟨(.named "ImVec4"), "tint_col"⟩]⟩
]

/-- Section "Combo Box" of `cimgui_essential.h`. -/
def comboBoxDecls : List FunDecl := [
  ⟨.bool, "igBeginCombo", [⟨(.ptr (.const .char)), "label"⟩, ⟨(.ptr (.const .char)), "preview_value"⟩, ⟨.int, "flags"⟩]⟩,
  ⟨.void, "igEndCombo", []⟩,
  ⟨.bool, "igCombo", [⟨(.ptr (.const .char)), "label"⟩, ⟨(.ptr .int), "current_item"⟩, ⟨(.array (.const (.ptr (.const .char))) none), "items"⟩, ⟨.int, "items_count"⟩, ⟨.int, "popup_max_height_in_items"⟩]⟩
]

/-- Section "Drag Sliders" of `cimgui_essential.h`. -/
def dragSlidersDecls : List FunDecl := [
  ⟨.bool, "igDragFloat", [⟨(.ptr (.const .char)), "label"⟩, ⟨(.ptr .float), "v"⟩, ⟨.float, "v_speed"⟩, ⟨.float, "v_min"⟩, ⟨.float, "v_max"⟩, ⟨(.ptr (.const .char)), "format"⟩, ⟨.int, "flags"⟩]⟩,
  ⟨.bool, "igDragFloat2", [⟨(.ptr (.const .char)), "label"⟩, ⟨(.array .float (some 2)), "v"⟩, ⟨.float, "v_speed"⟩, ⟨.float, "v_min"⟩, ⟨.float, "v_max"⟩, ⟨(.ptr (.const .char)), "format"⟩, ⟨.int, "flags"⟩]⟩,
  ⟨.bool, "igDragFloat3", [⟨(.ptr (.const .char)), "label"⟩, ⟨(.array .float (some 3)), "v"⟩, ⟨.float, "v_speed"⟩, ⟨.float, "v_min"⟩, ⟨.float, "v_max"⟩, ⟨(.ptr (.const .char)), "format"⟩, ⟨.int, "flags"⟩]⟩,
  ⟨.bool, "igDragFloat4", [⟨(.ptr (.const .char)), "label"⟩, ⟨(.array .float (some 4)), "v"⟩, ⟨.float, "v_speed"⟩, ⟨.float, "v_min"⟩, ⟨.float, "v_max"⟩, ⟨(.ptr (.const .char)), "format"⟩, ⟨.int, "flags"⟩]⟩,
  ⟨.bool, "igDragInt", [⟨(.ptr (.const .char)), "label"⟩, ⟨(.ptr .int), "v"⟩, ⟨.float, "v_speed"⟩, ⟨.int, "v_min"⟩, ⟨.int, "v_max"⟩, ⟨(.ptr (.const .char)), "format"⟩, ⟨.int, "flags"⟩]⟩
]

/-- Section "Regular Sliders" of `cimgui_essential.h`. -/
def regularSlidersDecls : List FunDecl := [
  ⟨.bool, "igSliderFloat", [⟨(.ptr (.const .char)), "label"⟩, ⟨(.ptr .float), "v"⟩, ⟨.float, "v_min"⟩, ⟨.float, "v_max"⟩, ⟨(.ptr (.const .char)), "format"⟩, ⟨.int, "flags"⟩]⟩,
  ⟨.bool, "igSliderFloat2", [⟨(.ptr (.const .char)), "label"⟩, ⟨(.array .float (some 2)), "v"⟩, ⟨.float, "v_min"⟩, ⟨.float, "v_max"⟩, ⟨(.ptr (.const .char)), "format"⟩, ⟨.int, "flags"⟩]⟩,
  ⟨.bool, "igSliderFloat3", [⟨(.ptr (.const .char)), "label"⟩, ⟨(.array .float (some 3)), "v"⟩, ⟨.float, "v_min"⟩, ⟨.float, "v_max"⟩, ⟨(.ptr (.const .char)), "format"⟩, ⟨.int, "flags"⟩]⟩,
  ⟨.bool, "igSliderFloat4", [⟨(.ptr (.const .char)), "label"⟩, ⟨(.array .float (some 4)), "v"⟩, ⟨.float, "v_min"⟩, ⟨.float, "v_max"⟩, ⟨(.ptr (.const .char)), "format"⟩, ⟨.int, "flags"⟩]⟩,
  ⟨.bool, "igSliderInt", [⟨(.ptr (.const .char)), "label"⟩, ⟨(.ptr .int), "v"⟩, ⟨.int, "v_min"⟩, ⟨.int, "v_max"⟩, ⟨(.ptr (.const .char)), "format"⟩, ⟨.int, "flags"⟩]⟩
]

/-- Section "Input with Keyboard" of `cimgui_essential.h`. -/
def inputWithKeyboardDecls : List FunDecl := [
  ⟨.bool, "igInputText", [⟨(.ptr (.const .char)), "label"⟩, ⟨(.ptr .char), "buf"⟩, ⟨.size_t, "buf_size"⟩, ⟨.int, "flags"⟩, ⟨(.ptr .void), "callback"⟩, ⟨(.ptr .void), "user_data"⟩]⟩,
  ⟨.bool, "igInputTextMultiline", [⟨(.ptr (.const .char)), "label"⟩, ⟨(.ptr .char), "buf"⟩, ⟨.size_t, "buf_size"⟩, ⟨(.named "ImVec2"), "size"⟩, ⟨.int, "flags"⟩, ⟨(.ptr .void), "callback"⟩, ⟨(.ptr .void), "user_data"⟩]⟩,
  ⟨.bool, "igInputFloat", [⟨(.ptr (.const .char)), "label"⟩, ⟨(.ptr .float), "v"⟩, ⟨.float, "step"⟩, ⟨.float, "step_fast"⟩, ⟨(.ptr (.const .char)), "format"⟩, ⟨.int, "flags"⟩]⟩,
  ⟨.bool, "igInputFloat2", [⟨(.ptr (.const .char)), "label"⟩, ⟨(.array .float (some 2)), "v"⟩, ⟨(.ptr (.const .char)), "format"⟩, ⟨.int, "flags"⟩]⟩,
  ⟨.bool, "igInputFloat3", [⟨(.ptr (.const .char)), "label"⟩, ⟨(.array .float (some 3)), "v"⟩, ⟨(.ptr (.const .char)), "format"⟩, ⟨.int, "flags"⟩]⟩,
  ⟨.bool, "igInputFloat4", [⟨(.ptr (.const .char)), "label"⟩, ⟨(.array .float (some 4)), "v"⟩, ⟨(.ptr (.const .char)), "format"⟩, ⟨.int, "flags"⟩]⟩,
  ⟨.bool, "igInputInt", [⟨(.ptr (.const .char)), "label"⟩, ⟨(.ptr .int), "v"⟩, ⟨.int, "step"⟩, ⟨.int, "step_fast"⟩, ⟨.int, "flags"⟩]⟩
]

/-- Section "Color Editors" of `cimgui_essential.h`. -/
def colorEditorsDecls : List FunDecl := [
  ⟨.bool, "igColorEdit3", [⟨(.ptr (.const .char)), "label"⟩, ⟨(.array .float (some 3)), "col"⟩, ⟨.int, "flags"⟩]⟩,
  ⟨.bool, "igColorEdit4", [⟨(.ptr (.const .char)), "label"⟩, ⟨(.array .float (some 4)), "col"⟩, ⟨.int, "flags"⟩]⟩,
  ⟨.bool, "igColorPicker3", [⟨(.ptr (.const .char)), "label"⟩, ⟨(.array .float (some 3)), "col"⟩, ⟨.int, "flags"⟩]⟩,
  ⟨.bool, "igColorPicker4", [⟨(.ptr (.const .char)), "label"⟩, ⟨(.array .float (some 4)), "col"⟩, ⟨.int, "flags"⟩, ⟨(.ptr (.const .float)), "ref_col"⟩]⟩,
  ⟨.bool, "igColorButton", [⟨(.ptr (.const .char)), "desc_id"⟩, ⟨(.named "ImVec4"), "col"⟩, ⟨.int, "flags"⟩, ⟨(.named "ImVec2"), "size"⟩]⟩
]

/-- Section "Trees" of `cimgui_essential.h`. -/
def treesDecls : List FunDecl := [
  ⟨.bool, "igTreeNode", [⟨(.ptr (.const .char)), "label"⟩]⟩,
  ⟨.bool, "igTreeNodeEx", [⟨(.ptr (.const .char)), "label"⟩, ⟨.int, "flags"⟩]⟩,
  ⟨.void, "igTreePush", [⟨(.ptr (.const .char)), "str_id"⟩]⟩,
  ⟨.void, "igTreePop", []⟩,
  ⟨.float, "igGetTreeNodeToLabelSpacing", []⟩,
  ⟨.bool, "igCollapsingHeader", [⟨(.ptr (.const .char)), "label"⟩, ⟨.int, "flags"⟩]⟩,
  ⟨.bool, "igSelectable", [⟨(.ptr (.const .char)), "label"⟩, ⟨.bool, "selected"⟩, ⟨.int, "flags"⟩, ⟨(.named "ImVec2"), "size"⟩]⟩
]

/-- Section "List Boxes" of `cimgui_essential.h`. -/
def listBoxesDecls : List FunDecl := [
  ⟨.bool, "igBeginListBox", [⟨(.ptr (.const .char)), "label"⟩, ⟨(.named "ImVec2"), "size"⟩]⟩,
  ⟨.void, "igEndListBox", []⟩,
  ⟨.bool, "igListBox", [⟨(.ptr (.const .char)), "label"⟩, ⟨(.ptr .int), "current_item"⟩, ⟨(.array (.const (.ptr (.const .char))) none), "items"⟩, ⟨.int, "items_count"⟩, ⟨.int, "height_in_items"⟩]⟩
]

/-- Section "Data Plotting" of `cimgui_essential.h`. -/
def dataPlottingDecls : List FunDecl := [
  ⟨.void, "igPlotLines", [⟨(.ptr (.const .char)), "label"⟩, ⟨(.ptr (.const .float)), "values"⟩, ⟨.int, "values_count"⟩, ⟨.int, "values_offset"⟩, ⟨(.ptr (.const .char)), "overlay_text"⟩, ⟨.float, "scale_min"⟩, ⟨.float, "scale_max"⟩, ⟨(.named "ImVec2"), "graph_size"⟩, ⟨.int, "stride"⟩]⟩,
  ⟨.void, "igPlotHistogram", [⟨(.ptr (.const .char)), "label"⟩, ⟨(.ptr (.const .float)), "values"⟩, ⟨.int, "values_count"⟩, ⟨.int, "values_offset"⟩, ⟨(.ptr (.const .char)), "overlay_text"⟩, ⟨.float, "scale_min"⟩, ⟨.float, "scale_max"⟩, ⟨(.named "ImVec2"), "graph_size"⟩, ⟨.int, "stride"⟩]⟩
]

/-- Section "Menus" of `cimgui_essential.h`. -/
def menusDecls : List FunDecl := [
  ⟨.bool, "igBeginMenuBar", []⟩,
  ⟨.void, "igEndMenuBar", []⟩,
  ⟨.bool, "igBeginMainMenuBar", []⟩,
  ⟨.void, "igEndMainMenuBar", []⟩,
  ⟨.bool, "igBeginMenu", [⟨(.ptr (.const .char)), "label"⟩, ⟨.bool, "enabled"⟩]⟩,
  ⟨.void, "igEndMenu", []⟩,
  ⟨.bool, "igMenuItem", [⟨(.ptr (.const .char)), "label"⟩, ⟨(.ptr (.const .char)), "shortcut"⟩, ⟨.bool, "selected"⟩, ⟨.bool, "enabled"⟩]⟩
]

/-- Section "Tooltips" of `cimgui_essential.h`. -/
def tooltipsDecls : List FunDecl := [
  ⟨.void, "igBeginTooltip", []⟩,
  ⟨.void, "igEndTooltip", []⟩,
  ⟨.void, "igSetTooltip", [⟨(.ptr (.const .char)), "fmt"⟩]⟩
]

/-- Section "Popups" of `cimgui_essential.h`. -/
def popupsDecls : List FunDecl := [
  ⟨.bool, "igBeginPopup", [⟨(.ptr (.const .char)), "str_id"⟩, ⟨.int, "flags"⟩]⟩,
  ⟨.bool, "igBeginPopupModal", [⟨(.ptr (.const .char)), "name"⟩, ⟨(.ptr .bool), "p_open"⟩, ⟨.int, "flags"⟩]⟩,
  ⟨.void, "igEndPopup", []⟩,
  ⟨.void, "igOpenPopup", [⟨(.ptr (.const .char)), "str_id"⟩, ⟨.int, "popup_flags"⟩]⟩,
  ⟨.void, "igCloseCurrentPopup", []⟩
]

/-- Section "Tables" of `cimgui_essential.h`. -/
def tablesDecls : List FunDecl := [
  ⟨.bool, "igBeginTable", [⟨(.ptr (.const .char)), "str_id"⟩, ⟨.int, "column"⟩, ⟨.int, "flags"⟩, ⟨(.named "ImVec2"), "outer_size"⟩, ⟨.float, "inner_width"⟩]⟩,
  ⟨.void, "igEndTable", []⟩,
  ⟨.void, "igTableNextRow", [⟨.int, "row_flags"⟩, ⟨.float, "min_row_height"⟩]⟩,
  ⟨.bool, "igTableNextColumn", []⟩,
  ⟨.bool, "igTableSetColumnIndex", [⟨.int, "column_n"⟩]⟩,
  ⟨.void, "igTableSetupColumn", [⟨(.ptr (.const .char)), "label"⟩, ⟨.int, "flags"⟩, ⟨.float, "init_width_or_weight"⟩, ⟨.unsignedInt, "user_id"⟩]⟩,
  ⟨.void, "igTableSetupScrollFreeze", [⟨.int, "cols"⟩, ⟨.int, "rows"⟩]⟩,
  ⟨.void, "igTableHeadersRow", []⟩
]

/-- Section "Tab Bars" of `cimgui_essential.h`. -/
def tabBarsDecls : List FunDecl := [
  ⟨.bool, "igBeginTabBar", [⟨(.ptr (.const .char)), "str_id"⟩, ⟨.int, "flags"⟩]⟩,
  ⟨.void, "igEndTabBar", []⟩,
  ⟨.bool, "igBeginTabItem", [⟨(.ptr (.const .char)), "label"⟩, ⟨(.ptr .bool), "p_open"⟩, ⟨.int, "flags"⟩]⟩,
  ⟨.void, "igEndTabItem", []⟩,
  ⟨.bool, "igTabItemButton", [⟨(.ptr (.const .char)), "label"⟩, ⟨.int, "flags"⟩]⟩,
  ⟨.void, "igSetTabItemClosed", [⟨(.ptr (.const .char)), "tab_or_docked_window_label"⟩]⟩
]

/-- Section "Utilities" of `cimgui_essential.h`. -/
def itemUtilitiesDecls : List FunDecl := [
  ⟨.bool, "igIsItemHovered", [⟨.int, "flags"⟩]⟩,
  ⟨.bool, "igIsItemActive", []⟩,
  ⟨.bool, "igIsItemFocused", []⟩,
  ⟨.bool, "igIsItemClicked", [⟨.int, "mouse_button"⟩]⟩,
  ⟨.bool, "igIsItemVisible", []⟩,
  ⟨.bool, "igIsItemEdited", []⟩,
  ⟨.bool, "igIsItemActivated", []⟩,
  ⟨.bool, "igIsItemDeactivated", []⟩,
  ⟨.bool, "igIsAnyItemHovered", []⟩,
  ⟨.bool, "igIsAnyItemActive", []⟩,
  ⟨.bool, "igIsAnyItemFocused", []⟩,
  ⟨.void, "igGetItemRectMin", [⟨(.ptr (.named "ImVec2")), "pOut"⟩]⟩,
  ⟨.void, "igGetItemRectMax", [⟨(.ptr (.named "ImVec2")), "pOut"⟩]⟩,
  ⟨.void, "igGetItemRectSize", [⟨(.ptr (.named "ImVec2")), "pOut"⟩]⟩,
  ⟨.void, "igSetItemAllowOverlap", []⟩
]

/-- Section "Miscellaneous Utilities" of `cimgui_essential.h`. -/
def miscellaneousUtilitiesDecls : List FunDecl := [
  ⟨.bool, "igIsKeyDown", [⟨.int, "user_key_index"⟩]⟩,
  ⟨.bool, "igIsKeyPressed", [⟨.int, "user_key_index"⟩, ⟨.bool, "repeat"⟩]⟩,
  ⟨.bool, "igIsKeyReleased", [⟨.int, "user_key_index"⟩]⟩,
  ⟨.bool, "igIsMouseDown", [⟨.int, "button"⟩]⟩,
  ⟨.bool, "igIsMouseClicked", [⟨.int, "button"⟩, ⟨.bool, "repeat"⟩]⟩,
  ⟨.bool, "igIsMouseReleased", [⟨.int, "button"⟩]⟩,
  ⟨.bool, "igIsMouseDoubleClicked", [⟨.int, "button"⟩]⟩,
  ⟨.bool, "igIsMouseHoveringRect", [⟨(.named "ImVec2"), "r_min"⟩, ⟨(.named "ImVec2"), "r_max"⟩, ⟨.bool, "clip"⟩]⟩,
  ⟨.void, "igGetMousePos", [⟨(.ptr (.named "ImVec2")), "pOut"⟩]⟩,
  ⟨.void, "igGetMousePosOnOpeningCurrentPopup", [⟨(.ptr (.named "ImVec2")), "pOut"⟩]⟩,
  ⟨.bool, "igIsMouseDragging", [⟨.int, "button"⟩, ⟨.float, "lock_threshold"⟩]⟩,
  ⟨.void, "igGetMouseDragDelta", [⟨(.ptr (.named "ImVec2")), "pOut"⟩, ⟨.int, "button"⟩, ⟨.float, "lock_threshold"⟩]⟩,
  ⟨.void, "igResetMouseDragDelta", [⟨.int, "button"⟩]⟩
]

/-- Section "Clipboard" of `cimgui_essential.h`. -/
def clipboardDecls : List FunDecl := [
  ⟨(.ptr (.const .char)), "igGetClipboardText", []⟩,
  ⟨.void, "igSetClipboardText", [⟨(.ptr (.const .char)), "text"⟩]⟩
]

/-- Section "Settings" of `cimgui_essential.h`. -/
def settingsDecls : List FunDecl := [
  ⟨.void, "igLoadIniSettingsFromDisk", [⟨(.ptr (.const .char)), "ini_filename"⟩]⟩,
  ⟨.void, "igLoadIniSettingsFromMemory", [⟨(.ptr (.const .char)), "ini_data"⟩, ⟨.size_t, "ini_size"⟩]⟩,
  ⟨.void, "igSaveIniSettingsToDisk", [⟨(.ptr (.const .char)), "ini_filename"⟩]⟩,
  ⟨(.ptr (.const .char)), "igSaveIniSettingsToMemory", [⟨(.ptr .size_t), "out_ini_size"⟩]⟩
]

/-- The function declarations of `cimgui_essential.h`, in order. -/
def cimgui_essential_h : List FunDecl :=
  coreContextFunctionsDecls ++ ioFunctionsDecls ++ frameFunctionsDecls ++ windowFunctionsDecls ++ demoDebugWindowsDecls
    ++ windowUtilitiesDecls ++ windowManipulationDecls ++ layoutDecls ++ textDecls ++ mainWidgetsDecls ++ imagesDecls ++
    comboBoxDecls ++ dragSlidersDecls ++ regularSlidersDecls ++ inputWithKeyboardDecls ++ colorEditorsDecls ++ treesDecls ++
    listBoxesDecls ++ dataPlottingDecls ++ menusDecls ++ tooltipsDecls ++ popupsDecls ++ tablesDecls ++ tabBarsDecls ++
    itemUtilitiesDecls ++ miscellaneousUtilitiesDecls ++ clipboardDecls ++ settingsDecls

/-- Every function declared by the wrapper's C surface. -/
def exported : List FunDecl := cimgui_essential_h ++ cimgui_sdl2_opengl3_h

/-- A return type that is `bool` or `void`. -/
def CType.isBoolOrVoid : CType → Bool
  | .bool => true
  | .void => true
  | _ => false

/-! ## Vector structs -/

/-- A field of a struct declaration. -/
structure Field where
  type : CType
  name : String
  deriving DecidableEq, Repr

/-- A struct declaration `struct name { fields };`, the fields in declaration order. A
declarator list such as `float x, y;` declares one field per declarator. -/
structure StructDecl where
  name : String
  fields : List Field
  deriving DecidableEq, Repr

/-- The declaration `struct ImVec2 { float x, y; };` of `cimgui_essential.h`. -/
def ImVec2 : StructDecl := ⟨"ImVec2", [⟨.float, "x"⟩, ⟨.float, "y"⟩]⟩

/-- The declaration `struct ImVec4 { float x, y, z, w; };` of `cimgui_essential.h`. -/
def ImVec4 : StructDecl := ⟨"ImVec4", [⟨.float, "x"⟩, ⟨.float, "y"⟩, ⟨.float, "z"⟩, ⟨.float, "w"⟩]⟩

/-- The platform the header is compiled for: `sizeof` and `alignof` of each type, in bytes. -/
structure Target where
  sizeOf : CType → Nat
  alignOf : CType → Nat

/-- The bytes skipped to bring offset `off` up to a multiple of `align`. -/
def padding (off align : Nat) : Nat := (align - off % align) % align

/-- The offsets of consecutive members laid out from offset `off`: each member goes at the next
offset that is a multiple of its alignment. -/
def offsetsFrom (T : Target) : Nat → List CType → List Nat
  | _, [] => []
  | off, t :: ts =>
      (off + padding off (T.alignOf t))
        :: offsetsFrom T (off + padding off (T.alignOf t) + T.sizeOf t) ts

/-- The offset just past the last of the members laid out from offset `off`. -/
def endFrom (T : Target) : Nat → List CType → Nat
  | off, [] => off
  | off, t :: ts => endFrom T (off + padding off (T.alignOf t) + T.sizeOf t) ts

/-- The alignment of a struct: the largest alignment among its members. -/
def structAlign (T : Target) (ts : List CType) : Nat :=
  ts.foldl (fun a t => max a (T.alignOf t)) 1

/-- The size of a struct with members of types `ts`: the end of the last member, brought up to
a multiple of the struct's alignment. -/
def layoutSize (T : Target) (ts : List CType) : Nat :=
  endFrom T 0 ts + padding (endFrom T 0 ts) (structAlign T ts)

/-- The member types of a struct, in declaration order. -/
def StructDecl.types (S : StructDecl) : List CType := S.fields.map fun f => f.type

/-- The values of `offsetof(S, field)` for the fields of `S`, in declaration order. -/
def StructDecl.offsets (T : Target) (S : StructDecl) : List Nat := offsetsFrom T 0 S.types

/-- The value of `sizeof(S)`. -/
def StructDecl.size (T : Target) (S : StructDecl) : Nat := layoutSize T S.types

/-- The bytes of `S` that hold a field; the rest of `sizeof(S)` is padding. -/
def StructDecl.payload (T : Target) (S : StructDecl) : Nat := (S.types.map T.sizeOf).sum

/-- Modelled from the spec: the wrapped library's two-component vector type, declared in
`imgui.h`, which is not among the sources. The spec describes it as the 2-float small vector
type; it is given by its member types in order. -/
def wrappedImVec2 : List CType := [.float, .float]

/-- Modelled from the spec: the wrapped library's four-component vector type, declared in
`imgui.h`, which is not among the sources. The spec describes it as the 4-float small vector
type; it is given by its member types in order. -/
def wrappedImVec4 : List CType := [.float, .float, .float, .float]

/-! ## Window flags -/

/-- The enumeration `ImGuiWindowFlags_` of `cimgui_essential.h`. -/
inductive ImGuiWindowFlags_ where
  | ImGuiWindowFlags_None
  | ImGuiWindowFlags_NoTitleBar
  | ImGuiWindowFlags_NoResize
  | ImGuiWindowFlags_NoMove
  | ImGuiWindowFlags_NoScrollbar
  | ImGuiWindowFlags_NoScrollWithMouse
  | ImGuiWindowFlags_NoCollapse
  | ImGuiWindowFlags_AlwaysAutoResize
  | ImGuiWindowFlags_NoBackground
  | ImGuiWindowFlags_NoSavedSettings
  | ImGuiWindowFlags_NoMouseInputs
  | ImGuiWindowFlags_MenuBar
  | ImGuiWindowFlags_HorizontalScrollbar
  | ImGuiWindowFlags_NoFocusOnAppearing
  | ImGuiWindowFlags_NoBringToFrontOnFocus
  | ImGuiWindowFlags_AlwaysVerticalScrollbar
  | ImGuiWindowFlags_AlwaysHorizontalScrollbar
  | ImGuiWindowFlags_AlwaysUseWindowPadding
  deriving DecidableEq, Repr, Fintype

open ImGuiWindowFlags_

/-- The value of each enumerator, as written in the header. All of them are non-negative and
no shift overflows `int`, so the values are given as natural numbers. -/
def ImGuiWindowFlags_.val : ImGuiWindowFlags_ → Nat
  | ImGuiWindowFlags_None => 0
  | ImGuiWindowFlags_NoTitleBar => 1 <<< 0
  | ImGuiWindowFlags_NoResize => 1 <<< 1
  | ImGuiWindowFlags_NoMove => 1 <<< 2
  | ImGuiWindowFlags_NoScrollbar => 1 <<< 3
  | ImGuiWindowFlags_NoScrollWithMouse => 1 <<< 4
  | ImGuiWindowFlags_NoCollapse => 1 <<< 5
  | ImGuiWindowFlags_AlwaysAutoResize => 1 <<< 6
  | ImGuiWindowFlags_NoBackground => 1 <<< 7
  | ImGuiWindowFlags_NoSavedSettings => 1 <<< 8
  | ImGuiWindowFlags_NoMouseInputs => 1 <<< 9
  | ImGuiWindowFlags_MenuBar => 1 <<< 10
  | ImGuiWindowFlags_HorizontalScrollbar => 1 <<< 11
  | ImGuiWindowFlags_NoFocusOnAppearing => 1 <<< 12
  | ImGuiWindowFlags_NoBringToFrontOnFocus => 1 <<< 13
  | ImGuiWindowFlags_AlwaysVerticalScrollbar => 1 <<< 14
  | ImGuiWindowFlags_AlwaysHorizontalScrollbar => 1 <<< 15
  | ImGuiWindowFlags_AlwaysUseWindowPadding => 1 <<< 16

/-- The enumerators in declaration order. -/
def enumerators : List ImGuiWindowFlags_ :=
  [ImGuiWindowFlags_None, ImGuiWindowFlags_NoTitleBar, ImGuiWindowFlags_NoResize,
   ImGuiWindowFlags_NoMove, ImGuiWindowFlags_NoScrollbar, ImGuiWindowFlags_NoScrollWithMouse,
   ImGuiWindowFlags_NoCollapse, ImGuiWindowFlags_AlwaysAutoResize, ImGuiWindowFlags_NoBackground,
   ImGuiWindowFlags_NoSavedSettings, ImGuiWindowFlags_NoMouseInputs, ImGuiWindowFlags_MenuBar,
   ImGuiWindowFlags_HorizontalScrollbar, ImGuiWindowFlags_NoFocusOnAppearing,
   ImGuiWindowFlags_NoBringToFrontOnFocus, ImGuiWindowFlags_AlwaysVerticalScrollbar,
   ImGuiWindowFlags_AlwaysHorizontalScrollbar, ImGuiWindowFlags_AlwaysUseWindowPadding]

instance : Std.Commutative (fun a b : Nat => a ||| b) := ⟨Nat.lor_comm⟩

instance : Std.Associative (fun a b : Nat => a ||| b) := ⟨Nat.lor_assoc⟩

/-- The `flags` argument a caller builds from a set of flags: their bitwise OR, as in
`ImGuiWindowFlags_NoMove | ImGuiWindowFlags_NoResize`. The empty set gives `0`. -/
def orFlags (A : Finset ImGuiWindowFlags_) : Nat :=
  A.fold (fun a b => a ||| b) 0 ImGuiWindowFlags_.val

/-! ## Theorems -/

/-! ### Forwarding -/

/-- Running one client call performs exactly the forwarded backend call, returns what it
returned and leaves the backend in the state it left. -/
theorem dispatch_run {σ : Type} (B : Backend σ) (w : WrapperCall) (s : σ) :
    ((dispatch w).run B s).trace = [w.forwarded]
    ∧ ((dispatch w).run B s).value = w.forwarded.retVal (B.exec w.forwarded s).1
    ∧ ((dispatch w).run B s).state = (B.exec w.forwarded s).2 := by
  cases w <;> exact ⟨rfl, rfl, rfl⟩

/-- A wrapper and the backend function it forwards to differ in name by the leading `c` and
take the same arguments. -/
theorem forwarded_name_args (w : WrapperCall) :
    w.name = "c" ++ w.forwarded.name ∧ w.args = w.forwarded.args := by
  cases w <;> exact ⟨by simp [WrapperCall.name, WrapperCall.forwarded, Call.name], rfl⟩

/-- A session through the wrapper is the session of the forwarded calls made directly. -/
theorem runWrappers_eq_runDirect {σ : Type} (B : Backend σ) (ws : List WrapperCall) (s : σ) :
    (runWrappers B ws s).trace = ws.map WrapperCall.forwarded
    ∧ (runWrappers B ws s).state = (runDirect B (ws.map WrapperCall.forwarded) s).1
    ∧ (runWrappers B ws s).results = (runDirect B (ws.map WrapperCall.forwarded) s).2 := by
  induction ws generalizing s with
  | nil => exact ⟨rfl, rfl, rfl⟩
  | cons w ws ih =>
    obtain ⟨ht, hv, hs⟩ := dispatch_run B w s
    obtain ⟨iht, ihs, ihr⟩ := ih ((dispatch w).run B s).state
    refine ⟨?_, ?_, ?_⟩
    · simp only [runWrappers, List.map_cons, ht, iht, List.singleton_append]
    · rw [hs] at ihs
      simp only [runWrappers, List.map_cons, runDirect, hs, ihs]
    · rw [hs] at ihr
      simp only [runWrappers, List.map_cons, runDirect, hs, hv, ihr]

/-- C1: for every event pointer and every backend state, `cImGui_ImplSDL2_ProcessEvent` returns
`true` exactly when the underlying `ImGui_ImplSDL2_ProcessEvent` does and `false` exactly when
it does; it calls the underlying function exactly once, with the same pointer, makes no other
call, and returns the result unchanged, leaving the backend state the underlying call left. -/
theorem cImGui_ImplSDL2_ProcessEvent_passthrough {σ : Type} (B : Backend σ) (event : Ptr)
    (s : σ) :
    (((cImGui_ImplSDL2_ProcessEvent event).run B s).value = true
        ↔ (B.ImGui_ImplSDL2_ProcessEvent event s).1 = true)
    ∧ (((cImGui_ImplSDL2_ProcessEvent event).run B s).value = false
        ↔ (B.ImGui_ImplSDL2_ProcessEvent event s).1 = false)
    ∧ ((cImGui_ImplSDL2_ProcessEvent event).run B s).value
        = (B.ImGui_ImplSDL2_ProcessEvent event s).1
    ∧ ((cImGui_ImplSDL2_ProcessEvent event).run B s).trace
        = [Call.ImGui_ImplSDL2_ProcessEvent event]
    ∧ ((cImGui_ImplSDL2_ProcessEvent event).run B s).state
        = (B.ImGui_ImplSDL2_ProcessEvent event s).2 :=
  ⟨Iff.rfl, Iff.rfl, rfl, rfl, rfl⟩

/-- C2: each boolean-returning initialisation wrapper (`cImGui_ImplSDL2_InitForOpenGL`,
`cImGui_ImplOpenGL3_Init`, `cImGui_ImplOpenGL3_CreateDeviceObjects`) returns, for all arguments
and every backend state, the value returned by the identically named underlying function called
once with the same arguments in the same order; a failure is reported as `false` and a success
as `true`. -/
theorem init_wrappers_return_underlying {σ : Type} (B : Backend σ) (window sdl_gl_context
    glsl_version : Ptr) (s : σ) :
    (((cImGui_ImplSDL2_InitForOpenGL window sdl_gl_context).run B s).value
        = (B.ImGui_ImplSDL2_InitForOpenGL window sdl_gl_context s).1
      ∧ ((cImGui_ImplSDL2_InitForOpenGL window sdl_gl_context).run B s).trace
        = [Call.ImGui_ImplSDL2_InitForOpenGL window sdl_gl_context])
    ∧ (((cImGui_ImplOpenGL3_Init glsl_version).run B s).value
        = (B.ImGui_ImplOpenGL3_Init glsl_version s).1
      ∧ ((cImGui_ImplOpenGL3_Init glsl_version).run B s).trace
        = [Call.ImGui_ImplOpenGL3_Init glsl_version])
    ∧ ((cImGui_ImplOpenGL3_CreateDeviceObjects.run B s).value
        = (B.ImGui_ImplOpenGL3_CreateDeviceObjects s).1
      ∧ (cImGui_ImplOpenGL3_CreateDeviceObjects.run B s).trace
        = [Call.ImGui_ImplOpenGL3_CreateDeviceObjects])
    ∧ (((cImGui_ImplSDL2_InitForOpenGL window sdl_gl_context).run B s).value = false
        ↔ (B.ImGui_ImplSDL2_InitForOpenGL window sdl_gl_context s).1 = false)
    ∧ (((cImGui_ImplOpenGL3_Init glsl_version).run B s).value = false
        ↔ (B.ImGui_ImplOpenGL3_Init glsl_version s).1 = false)
    ∧ ((cImGui_ImplOpenGL3_CreateDeviceObjects.run B s).value = false
        ↔ (B.ImGui_ImplOpenGL3_CreateDeviceObjects s).1 = false) :=
  ⟨⟨rfl, rfl⟩, ⟨rfl, rfl⟩, ⟨rfl, rfl⟩, Iff.rfl, Iff.rfl, Iff.rfl⟩

/-- C3: forwarding is one-to-one and unvalidated for all ten wrappers. For every finite sequence
of wrapper calls, in any order and with any arguments (null pointers included), the backend calls
performed are exactly the input sequence with each wrapper replaced by the identically named
backend function on the same arguments; every single wrapper call, from any state, performs
exactly that one backend call and nothing else; the final backend state and the values returned
are those of making the backend calls directly. -/
theorem wrappers_forward_one_to_one {σ : Type} (B : Backend σ) (ws : List WrapperCall) (s : σ) :
    (runWrappers B ws s).trace = ws.map WrapperCall.forwarded
    ∧ (runWrappers B ws s).trace.length = ws.length
    ∧ (runWrappers B ws s).state = (runDirect B (ws.map WrapperCall.forwarded) s).1
    ∧ (runWrappers B ws s).results = (runDirect B (ws.map WrapperCall.forwarded) s).2
    ∧ (∀ (w : WrapperCall) (t : σ),
        ((dispatch w).run B t).trace = [w.forwarded]
        ∧ ((dispatch w).run B t).state = (B.exec w.forwarded t).2
        ∧ ((dispatch w).run B t).value = w.forwarded.retVal (B.exec w.forwarded t).1)
    ∧ (∀ w : WrapperCall, w.name = "c" ++ w.forwarded.name ∧ w.args = w.forwarded.args) := by
  obtain ⟨ht, hs, hr⟩ := runWrappers_eq_runDirect B ws s
  refine ⟨ht, ?_, hs, hr, ?_, forwarded_name_args⟩
  · rw [ht, List.length_map]
  · intro w t
    obtain ⟨h1, h2, h3⟩ := dispatch_run B w t
    exact ⟨h1, h3, h2⟩

/-! ### Return types -/

set_option maxRecDepth 100000 in
/-- C4, as stated, fails: `igCreateContext`, the first function declared in
`cimgui_essential.h`, returns `ImGuiContext*`, which is neither `bool` nor `void`. -/
theorem exported_not_all_bool_or_void :
    (⟨.ptr (.named "ImGuiContext"), "igCreateContext", [⟨.ptr .void, "shared_font_atlas"⟩]⟩
        : FunDecl) ∈ exported
    ∧ ¬ (∀ d ∈ exported, d.ret = CType.bool ∨ d.ret = CType.void) := by
  constructor
  · decide
  · decide

set_option maxRecDepth 100000 in
/-- C4, amended: every function declared in `cimgui_sdl2_opengl3.h` returns `bool` or `void`;
of the 163 functions declared in `cimgui_essential.h`, all return `bool` or `void` except
exactly twelve accessors, which return a pointer, a `float` or a `double`. -/
theorem exported_return_types :
    (cimgui_sdl2_opengl3_h.all fun d => d.ret.isBoolOrVoid) = true
    ∧ cimgui_sdl2_opengl3_h.length = 10
    ∧ cimgui_essential_h.length = 163
    ∧ (cimgui_essential_h.filter fun d => !d.ret.isBoolOrVoid).map (fun d => (d.name, d.ret))
      = [("igCreateContext", .ptr (.named "ImGuiContext")),
         ("igGetCurrentContext", .ptr (.named "ImGuiContext")),
         ("igGetIO", .ptr (.named "ImGuiIO")),
         ("igGetTime", .double),
         ("igGetDrawData", .ptr (.named "ImDrawData")),
         ("igGetWindowWidth", .float),
         ("igGetWindowHeight", .float),
         ("igGetCursorPosX", .float),
         ("igGetCursorPosY", .float),
         ("igGetTreeNodeToLabelSpacing", .float),
         ("igGetClipboardText", .ptr (.const .char)),
         ("igSaveIniSettingsToMemory", .ptr (.const .char))] := by
  refine ⟨?_, ?_, ?_, ?_⟩
  · decide
  · decide
  · decide
  · decide

/-! ### Window flags -/

/-- Two enumerators share a bit only when they are the same enumerator. -/
theorem val_land_val (f g : ImGuiWindowFlags_) :
    f.val &&& g.val = if f = g then g.val else 0 := by
  cases f <;> cases g <;> rfl

/-- The value of `ImGuiWindowFlags_None` is the only zero value. -/
theorem val_eq_zero_iff (f : ImGuiWindowFlags_) : f.val = 0 ↔ f = ImGuiWindowFlags_None := by
  cases f <;> decide

/-- Every enumerator fits in 17 bits. -/
theorem val_lt (f : ImGuiWindowFlags_) : f.val < 2 ^ 17 := by
  cases f <;> decide

theorem orFlags_empty : orFlags ∅ = 0 := rfl

theorem orFlags_insert {f : ImGuiWindowFlags_} {A : Finset ImGuiWindowFlags_} (h : f ∉ A) :
    orFlags (insert f A) = f.val ||| orFlags A := by
  unfold orFlags
  rw [Finset.fold_insert h]

/-- Masking an OR of flags with one enumerator gives that enumerator when it is in the set and
nothing otherwise. -/
theorem orFlags_land (A : Finset ImGuiWindowFlags_) (g : ImGuiWindowFlags_) :
    orFlags A &&& g.val = if g ∈ A then g.val else 0 := by
  induction A using Finset.induction_on with
  | empty => simp [orFlags_empty]
  | insert h ih =>
    rename_i f A
    rw [orFlags_insert h, Nat.and_distrib_right, ih, val_land_val]
    by_cases hfg : f = g
    · subst hfg
      simp [h]
    · have hgf : ¬ g = f := fun e => hfg e.symm
      simp [hfg, hgf, Finset.mem_insert]

theorem orFlags_lt (A : Finset ImGuiWindowFlags_) : orFlags A < 2 ^ 17 := by
  induction A using Finset.induction_on with
  | empty => simp [orFlags_empty]
  | insert h ih =>
    rw [orFlags_insert h]
    exact Nat.or_lt_two_pow (val_lt _) ih

/-- A flag other than `None` is in the set exactly when its bit is set in the OR. -/
theorem mem_iff_land_ne_zero (A : Finset ImGuiWindowFlags_) (hA : ImGuiWindowFlags_None ∉ A)
    (f : ImGuiWindowFlags_) : f ∈ A ↔ orFlags A &&& f.val ≠ 0 := by
  rw [orFlags_land]
  by_cases hf : f ∈ A
  · have hne : f ≠ ImGuiWindowFlags_None := fun e => hA (e ▸ hf)
    simp [hf, val_eq_zero_iff, hne]
  · simp [hf]

set_option maxRecDepth 100000 in
/-- C8: the declared window flags form an independent bit set. `ImGuiWindowFlags_None` is `0` and
the other 17 enumerators are, in declaration order, the values `2^i` for `i = 0..16`, pairwise
distinct; for sets `A`, `B` of flags other than `None`, the OR of `A` equals the OR of `B` exactly
when `A = B`; a flag is in `A` exactly when the OR of `A` masked with it is non-zero; OR-ing with
`None` is the identity; the OR of all flags is `2^17 - 1 = 131071`, and every OR of flags fits
the non-negative range of the 32-bit `int flags` parameter of `igBegin`. -/
theorem windowFlags_independent_bits (A B : Finset ImGuiWindowFlags_)
    (hA : ImGuiWindowFlags_None ∉ A) (hB : ImGuiWindowFlags_None ∉ B)
    (f : ImGuiWindowFlags_) (x : Nat) :
    ImGuiWindowFlags_None.val = 0
    ∧ enumerators.map ImGuiWindowFlags_.val = 0 :: (List.range 17).map (fun i => 2 ^ i)
    ∧ (enumerators.Nodup ∧ ∀ g : ImGuiWindowFlags_, g ∈ enumerators)
    ∧ (enumerators.map ImGuiWindowFlags_.val).Nodup
    ∧ (orFlags A = orFlags B ↔ A = B)
    ∧ (f ∈ A ↔ orFlags A &&& f.val ≠ 0)
    ∧ (x ||| ImGuiWindowFlags_None.val = x ∧ ImGuiWindowFlags_None.val ||| x = x)
    ∧ orFlags (Finset.univ.erase ImGuiWindowFlags_None) = 2 ^ 17 - 1
    ∧ orFlags Finset.univ = 131071
    ∧ orFlags A < 2 ^ 31
    ∧ (⟨.bool, "igBegin", [⟨.ptr (.const .char), "name"⟩, ⟨.ptr .bool, "p_open"⟩,
        ⟨.int, "flags"⟩]⟩ : FunDecl) ∈ cimgui_essential_h := by
  refine ⟨rfl, by decide, ⟨by decide, fun g => by cases g <;> decide⟩, by decide, ?_,
    mem_iff_land_ne_zero A hA f, ⟨Nat.or_zero x, Nat.zero_or x⟩, by decide, by decide, ?_,
    by decide⟩
  · constructor
    · intro h
      ext g
      rw [mem_iff_land_ne_zero A hA g, mem_iff_land_ne_zero B hB g, h]
    · intro h
      rw [h]
  · exact lt_trans (orFlags_lt A) (by decide)

set_option maxRecDepth 100000 in
/-- The flag-set properties at `A = {NoMove, NoResize}`, `B = {NoTitleBar}`, `f = NoResize` and
`x = 6`. -/
theorem windowFlags_independent_bits_witness :
    ImGuiWindowFlags_None ∉ ({ImGuiWindowFlags_NoMove, ImGuiWindowFlags_NoResize}
        : Finset ImGuiWindowFlags_)
    ∧ ImGuiWindowFlags_None ∉ ({ImGuiWindowFlags_NoTitleBar} : Finset ImGuiWindowFlags_)
    ∧ orFlags {ImGuiWindowFlags_NoMove, ImGuiWindowFlags_NoResize} = 6
    ∧ (orFlags {ImGuiWindowFlags_NoMove, ImGuiWindowFlags_NoResize}
          = orFlags {ImGuiWindowFlags_NoTitleBar}
        ↔ ({ImGuiWindowFlags_NoMove, ImGuiWindowFlags_NoResize} : Finset ImGuiWindowFlags_)
          = {ImGuiWindowFlags_NoTitleBar})
    ∧ (ImGuiWindowFlags_NoResize ∈ ({ImGuiWindowFlags_NoMove, ImGuiWindowFlags_NoResize}
          : Finset ImGuiWindowFlags_)
        ↔ orFlags {ImGuiWindowFlags_NoMove, ImGuiWindowFlags_NoResize}
            &&& ImGuiWindowFlags_NoResize.val ≠ 0)
    ∧ 6 ||| ImGuiWindowFlags_None.val = 6 :=
  ⟨by decide, by decide, by decide,
    (windowFlags_independent_bits {ImGuiWindowFlags_NoMove, ImGuiWindowFlags_NoResize}
      {ImGuiWindowFlags_NoTitleBar} (by decide) (by decide) ImGuiWindowFlags_NoResize 6).2.2.2.2.1,
    (windowFlags_independent_bits {ImGuiWindowFlags_NoMove, ImGuiWindowFlags_NoResize}
      {ImGuiWindowFlags_NoTitleBar} (by decide) (by decide) ImGuiWindowFlags_NoResize
      6).2.2.2.2.2.1,
    (windowFlags_independent_bits {ImGuiWindowFlags_NoMove, ImGuiWindowFlags_NoResize}
      {ImGuiWindowFlags_NoTitleBar} (by decide) (by decide) ImGuiWindowFlags_NoResize
      6).2.2.2.2.2.2.1.1⟩

/-! ### Vector structs -/

/-- No padding is needed at an offset that is a multiple of the alignment. -/
theorem padding_of_dvd {off align : Nat} (h : align ∣ off) : padding off align = 0 := by
  unfold padding
  rw [Nat.mod_eq_zero_of_dvd h, Nat.sub_zero, Nat.mod_self]

/-- Alignment one never needs padding. -/
theorem padding_one (off : Nat) : padding off 1 = 0 := padding_of_dvd (one_dvd off)

/-- C6: `ImVec2` consists of exactly the two `float` fields `x`, `y`, at offsets `0` and
`sizeof(float)`, with size `2 * sizeof(float)`; `ImVec4` of exactly the four `float` fields
`x`, `y`, `z`, `w`, at offsets `0`, `1`, `2`, `3` times `sizeof(float)`, with size
`4 * sizeof(float)`; neither has padding, and both have the member types in order and the size
of the wrapped library's 2-float and 4-float vector types. This holds on every platform where
`sizeof(float)` is a multiple of `alignof(float)`, as C requires. -/
theorem ImVec_layout (T : Target) (h : T.alignOf .float ∣ T.sizeOf .float) :
    (ImVec2.fields = [⟨.float, "x"⟩, ⟨.float, "y"⟩]
      ∧ ImVec2.offsets T = [0, T.sizeOf .float]
      ∧ ImVec2.size T = 2 * T.sizeOf .float
      ∧ ImVec2.size T = ImVec2.payload T)
    ∧ (ImVec4.fields = [⟨.float, "x"⟩, ⟨.float, "y"⟩, ⟨.float, "z"⟩, ⟨.float, "w"⟩]
      ∧ ImVec4.offsets T = [0, T.sizeOf .float, 2 * T.sizeOf .float, 3 * T.sizeOf .float]
      ∧ ImVec4.size T = 4 * T.sizeOf .float
      ∧ ImVec4.size T = ImVec4.payload T)
    ∧ (ImVec2.types = wrappedImVec2 ∧ ImVec2.size T = layoutSize T wrappedImVec2)
    ∧ (ImVec4.types = wrappedImVec4 ∧ ImVec4.size T = layoutSize T wrappedImVec4) := by
  have p0 : padding 0 (T.alignOf .float) = 0 := padding_of_dvd (dvd_zero _)
  have p1 : padding (T.sizeOf .float) (T.alignOf .float) = 0 := padding_of_dvd h
  have p2 : padding (T.sizeOf .float + T.sizeOf .float) (T.alignOf .float) = 0 :=
    padding_of_dvd (dvd_add h h)
  have p3 : padding (T.sizeOf .float + T.sizeOf .float + T.sizeOf .float) (T.alignOf .float)
      = 0 := padding_of_dvd (dvd_add (dvd_add h h) h)
  have hmax : ∀ n, T.alignOf .float ∣ n → padding n (max 1 (T.alignOf .float)) = 0 := by
    intro n hn
    rcases Nat.eq_zero_or_pos (T.alignOf .float) with h0 | hpos
    · rw [h0, Nat.max_eq_left (Nat.zero_le 1)]
      exact padding_one n
    · rw [Nat.max_eq_right hpos]
      exact padding_of_dvd hn
  have e2 : endFrom T 0 ImVec2.types = T.sizeOf .float + T.sizeOf .float := by
    simp [endFrom, StructDecl.types, ImVec2, p0, p1]
  have e4 : endFrom T 0 ImVec4.types
      = T.sizeOf .float + T.sizeOf .float + T.sizeOf .float + T.sizeOf .float := by
    simp [endFrom, StructDecl.types, ImVec4, p0, p1, p2, p3]
  have a2 : structAlign T ImVec2.types = max 1 (T.alignOf .float) := by
    simp [structAlign, StructDecl.types, ImVec2]
  have a4 : structAlign T ImVec4.types = max 1 (T.alignOf .float) := by
    simp [structAlign, StructDecl.types, ImVec4]
  have s2 : ImVec2.size T = T.sizeOf .float + T.sizeOf .float := by
    unfold StructDecl.size layoutSize
    rw [e2, a2, hmax _ (dvd_add h h), Nat.add_zero]
  have s4 : ImVec4.size T
      = T.sizeOf .float + T.sizeOf .float + T.sizeOf .float + T.sizeOf .float := by
    unfold StructDecl.size layoutSize
    rw [e4, a4, hmax _ (dvd_add (dvd_add (dvd_add h h) h) h), Nat.add_zero]
  refine ⟨⟨rfl, ?_, ?_, ?_⟩, ⟨rfl, ?_, ?_, ?_⟩, ⟨rfl, rfl⟩, ⟨rfl, rfl⟩⟩
  · simp [StructDecl.offsets, offsetsFrom, StructDecl.types, ImVec2, p0, p1]
  · rw [s2]; omega
  · rw [s2]; simp [StructDecl.payload, StructDecl.types, ImVec2]
  · simp [StructDecl.offsets, offsetsFrom, StructDecl.types, ImVec4, p0, p1, p2, p3]
    omega
  · rw [s4]; omega
  · rw [s4]; simp [StructDecl.payload, StructDecl.types, ImVec4]; omega

/-- The layout of the two vector structs on a platform with 4-byte, 4-aligned `float`. -/
theorem ImVec_layout_witness :
    (4 ∣ 4)
    ∧ ImVec2.offsets ⟨fun _ => 4, fun _ => 4⟩ = [0, 4]
    ∧ ImVec2.size ⟨fun _ => 4, fun _ => 4⟩ = 8
    ∧ ImVec4.offsets ⟨fun _ => 4, fun _ => 4⟩ = [0, 4, 8, 12]
    ∧ ImVec4.size ⟨fun _ => 4, fun _ => 4⟩ = 16 :=
  ⟨dvd_refl 4,
    (ImVec_layout ⟨fun _ => 4, fun _ => 4⟩ (dvd_refl 4)).1.2.1,
    (ImVec_layout ⟨fun _ => 4, fun _ => 4⟩ (dvd_refl 4)).1.2.2.1,
    (ImVec_layout ⟨fun _ => 4, fun _ => 4⟩ (dvd_refl 4)).2.1.2.1,
    (ImVec_layout ⟨fun _ => 4, fun _ => 4⟩ (dvd_refl 4)).2.1.2.2.1⟩

end ImguiBackends
